import Mathlib

/-!
# Verification of the F1 lap-time data pipeline

Shallow embedding of the two batch stages of the repository:

* `src/data/ingest_data.py` — season ingestion: lap filtering
  (`pick_accurate().pick_wo_box()`), weather enrichment by linear
  interpolation (`np.interp`), metadata attachment, and derivation of
  `LapTimeSeconds`.
* `src/features/build_features.py` — the `FeatureEngineer` pipeline:
  `load_raw_data`, `calculate_fuel_mass`, `encode_physics_features`,
  `create_target_variable`, `save_processed_data`.

Numeric (float) pandas columns are modelled as `ℚ`; missing values (NaN/NaT)
as `Option`.  Tables are lists of rows, in order.
-/

namespace F1

/-! ## Stage 1: ingestion (`ingest_data.py`) -/

/-- One weather sample (`session.weather_data` row): elapsed time in seconds
(`TimeSec`) and the four numeric channels used by `enrich_laps_with_weather`. -/
structure WeatherRow where
  timeSec : ℚ
  airTemp : ℚ
  trackTemp : ℚ
  humidity : ℚ
  rainfall : ℚ
  deriving Repr, DecidableEq

/-- One lap record (`session.laps` row), with the fields the ingestion stage
reads: end-of-lap time in seconds (`TimeSec`), the accuracy flag used by
`pick_accurate()`, the pit timestamps used by `pick_wo_box()` (present = not
NaT), the lap duration in seconds (`LapTime.dt.total_seconds()`, missing when
NaT), and the weather columns the enrichment adds (missing before it runs). -/
structure LapRow where
  driver : String
  lapNumber : ℚ
  timeSec : ℚ
  isAccurate : Bool
  pitInTime : Option ℚ
  pitOutTime : Option ℚ
  lapTime : Option ℚ
  airTemp : Option ℚ := none
  trackTemp : Option ℚ := none
  humidity : Option ℚ := none
  rainfall : Option ℚ := none
  deriving Repr, DecidableEq

/-- Model of `np.interp x xp fp` over the point list `pts = xp.zip fp`,
assumed sorted by first component.  `none` models the `ValueError` numpy
raises when the array of sample points is empty; otherwise: values left of
the first sample clamp to the first value, values right of the last sample
clamp to the last value, and interior values are linearly interpolated
between the bracketing samples. -/
def interpPts (x : ℚ) : List (ℚ × ℚ) → Option ℚ
  | [] => none
  | [(_, y0)] => some y0
  | (x0, y0) :: (x1, y1) :: rest =>
    if x ≤ x0 then some y0
    else if x ≤ x1 then some (y0 + (y1 - y0) * (x - x0) / (x1 - x0))
    else interpPts x ((x1, y1) :: rest)

/-- The weather columns written to one lap by `enrich_laps_with_weather`:
each of the four channels is `np.interp` of the weather series' (time, value)
pairs at the lap's `TimeSec`. -/
def enrichLap (weather : List WeatherRow) (lp : LapRow) : LapRow :=
  { lp with
    airTemp := interpPts lp.timeSec (weather.map fun w => (w.timeSec, w.airTemp))
    trackTemp := interpPts lp.timeSec (weather.map fun w => (w.timeSec, w.trackTemp))
    humidity := interpPts lp.timeSec (weather.map fun w => (w.timeSec, w.humidity))
    rainfall := interpPts lp.timeSec (weather.map fun w => (w.timeSec, w.rainfall)) }

/-- Embedding of `enrich_laps_with_weather(session)`: adds the four
interpolated weather columns to `session.laps` (note: to the full lap table
of the session, which is what the source reads and returns).  With an empty
weather series every `np.interp` call raises `ValueError`; this is modelled
as `none`. -/
def enrich_laps_with_weather (laps : List LapRow) (weather : List WeatherRow) :
    Option (List LapRow) :=
  match weather with
  | [] => none
  | _ :: _ => some (laps.map (enrichLap weather))

/-- A loaded race session: its lap table and its weather time-series. -/
structure Session where
  laps : List LapRow
  weather : List WeatherRow

/-- One schedule entry of `fastf1.get_event_schedule`, together with the
outcome of `get_session`/`session.load` for it (`none` models a load failure,
which the per-round `try`/`except` catches). -/
structure RaceEvent where
  roundNumber : ℕ
  eventName : String
  location : String
  eventFormat : String
  session : Option Session

/-- One row of the resulting season table: the (enriched) lap plus the
context metadata attached in `process_season`, and the derived
`LapTimeSeconds` column. -/
structure SeasonRow where
  lap : LapRow
  roundNumber : ℕ
  eventName : String
  year : ℤ
  circuitLocation : String
  lapTimeSeconds : Option ℚ
  deriving Repr, DecidableEq

/-- The `pick_accurate().pick_wo_box()` filter of `process_season`:
keep laps flagged accurate whose `PitInTime` and `PitOutTime` are both
missing (not adjacent to a pit stop). -/
def cleanLapFilter (laps : List LapRow) : List LapRow :=
  (laps.filter (·.isAccurate)).filter
    (fun l => l.pitInTime = none && l.pitOutTime = none)

/-- The body of the per-round loop of `process_season`.  `none` models a
skipped round (load failure, empty filtered lap set, or an exception from the
enrichment, all caught by the `try`/`except`).  Mirrors the source exactly:
the filtered set `clean` is only used for the emptiness check, because the
subsequent call `enrich_laps_with_weather(session)` re-reads `session.laps`
and its result overwrites `clean_laps`. -/
def processRound (year : ℤ) (race : RaceEvent) : Option (List SeasonRow) :=
  match race.session with
  | none => none
  | some s =>
    let clean := cleanLapFilter s.laps
    if clean.isEmpty then none
    else
      match enrich_laps_with_weather s.laps s.weather with
      | none => none
      | some enriched =>
        some (enriched.map fun lp =>
          { lap := lp
            roundNumber := race.roundNumber
            eventName := race.eventName
            year := year
            circuitLocation := race.location
            lapTimeSeconds := lp.lapTime })

/-- Embedding of `process_season(year)`: drop `testing` events, process each
remaining round (skipping failed/empty rounds), and return `none` when no
round yielded laps, otherwise the concatenation of all per-round tables with
`LapTimeSeconds` derived from the lap duration. -/
def process_season (year : ℤ) (schedule : List RaceEvent) :
    Option (List SeasonRow) :=
  let races := schedule.filter (·.eventFormat ≠ "testing")
  let tables := races.filterMap (processRound year)
  if tables.isEmpty then none else some tables.flatten

/-! ## Stage 2: feature engineering (`build_features.py`) -/

/-- One row of a raw season table as read by `FeatureEngineer`, with the
columns the pipeline touches, plus the three derived columns (missing until
their step runs). -/
structure Row where
  year : ℤ
  eventName : String
  lapNumber : ℚ
  compound : String
  tyreLife : Option ℚ
  trackTemp : Option ℚ
  lapTimeSeconds : Option ℚ
  fuelMass : Option ℚ := none
  compoundSoftness : Option ℤ := none
  tyreAge : Option ℤ := none
  deriving Repr, DecidableEq

/-- Maximum of a list of rationals, `none` on the empty list
(pandas `groupby(...).max()` per group). -/
def maxQ? : List ℚ → Option ℚ
  | [] => none
  | a :: l => some (l.foldl max a)

/-- The rows of `df` in the `(Year, EventName)` group `(y, e)`. -/
def groupRows (df : List Row) (y : ℤ) (e : String) : List Row :=
  df.filter (fun r => r.year = y && r.eventName = e)

/-- Lookup `race_lengths`: the map from `(Year, EventName)` to the maximum
observed `LapNumber` of that group
(`groupby(['Year','EventName'])['LapNumber'].max()`). -/
def raceLengths (df : List Row) (y : ℤ) (e : String) : Option ℚ :=
  maxQ? ((groupRows df y e).map (·.lapNumber))

/-- Embedding of `get_fuel(row)`: laps remaining times the burn rate
1.7 kg/lap plus the 5 kg safety margin, with total laps looked up in
`race_lengths` and defaulting to 55 for absent groups. -/
def getFuel (lengths : ℤ → String → Option ℚ) (r : Row) : ℚ :=
  let totalLaps := (lengths r.year r.eventName).getD 55
  (totalLaps - r.lapNumber) * (17/10) + 5

/-- Embedding of `calculate_fuel_mass`: assign `FuelMass = get_fuel(row)` to
every row, then clip it from below at 2.0 kg. -/
def calculate_fuel_mass (df : List Row) : List Row :=
  let assigned := df.map fun r => { r with fuelMass := some (getFuel (raceLengths df) r) }
  assigned.map fun r => { r with fuelMass := r.fuelMass.map (fun f => max f 2) }

/-- Ordinal softness score `compound_map` of a compound token;
`none` models pandas `.map` producing NaN for unmapped keys. -/
def compound_map (c : String) : Option ℤ :=
  if c = "HARD" then some 1
  else if c = "MEDIUM" then some 2
  else if c = "SOFT" then some 3
  else if c = "INTERMEDIATE" then some 0
  else if c = "WET" then some 0
  else none

/-- The boolean filter `df['Compound_Softness'] > 0` (a NaN score compares
as not greater than 0, so unmapped compounds are dropped too). -/
def softnessPos (r : Row) : Bool :=
  match r.compoundSoftness with
  | some s => 0 < s
  | none => false

/-- Truncation toward zero, modelling pandas `astype(int)` on a float. -/
def truncToInt (q : ℚ) : ℤ :=
  if 0 ≤ q then ⌊q⌋ else ⌈q⌉

/-- Median of a list of rationals: `none` on the empty list, the middle
element of the sorted list for odd length, the mean of the two middle
elements for even length (pandas `Series.median`, which skips missing
values — callers pass the list of non-missing values). -/
def medianQ? (l : List ℚ) : Option ℚ :=
  let s := List.insertionSort (· ≤ ·) l
  let n := s.length
  if n = 0 then none
  else if n % 2 = 1 then s[n / 2]?
  else
    match s[n / 2 - 1]?, s[n / 2]? with
    | some a, some b => some ((a + b) / 2)
    | _, _ => none

/-- The per-group `TrackTemp` median over non-missing values, used by the
`fillna` in `encode_physics_features`. -/
def groupTrackTempMedian (df : List Row) (y : ℤ) (e : String) : Option ℚ :=
  medianQ? ((groupRows df y e).filterMap (·.trackTemp))

/-- Embedding of `encode_physics_features`: map the compound token to its
softness score, drop the rows whose score is not strictly positive, derive
`TyreAge = TyreLife.fillna(1).astype(int)`, and fill missing `TrackTemp`
with the `(Year, EventName)` group median of the filtered table. -/
def encode_physics_features (df : List Row) : List Row :=
  let mapped := df.map fun r => { r with compoundSoftness := compound_map r.compound }
  let filtered := mapped.filter softnessPos
  let withAge := filtered.map fun r =>
    { r with tyreAge := some (truncToInt ((r.tyreLife).getD 1)) }
  withAge.map fun r =>
    { r with trackTemp :=
        match r.trackTemp with
        | some t => some t
        | none => groupTrackTempMedian withAge r.year r.eventName }

/-- Lookup `race_medians`: the map from `(Year, EventName)` to the median
`LapTimeSeconds` over the non-missing values of that group
(`groupby(['Year','EventName'])['LapTimeSeconds'].median()`). -/
def raceMedians (df : List Row) (y : ℤ) (e : String) : Option ℚ :=
  medianQ? ((groupRows df y e).filterMap (·.lapTimeSeconds))

/-- Embedding of `is_outlier(row)`: the lap time exceeds 1.20 times the
group's median pace.  A missing lap time or a missing (all-NaN) median
compares as `False` in pandas, so such rows are not flagged. -/
def is_outlier (df : List Row) (r : Row) : Bool :=
  match r.lapTimeSeconds, raceMedians df r.year r.eventName with
  | some t, some m => decide (m * (6/5) < t)
  | _, _ => false

/-- Embedding of `create_target_variable`: drop the rows flagged by
`is_outlier`, the medians being computed over the table as it stands before
this filter. -/
def create_target_variable (df : List Row) : List Row :=
  df.filter (fun r => !(is_outlier df r))

/-- The in-memory `FeatureEngineer` run on the ordered list of season tables
read by `load_raw_data`: fail (`FileNotFoundError`) when there are no input
tables, otherwise concatenate them and run the three transform steps in
order.  (`save_processed_data` only persists the result.) -/
def featurePipeline (tables : List (List Row)) : Option (List Row) :=
  if tables.isEmpty then none
  else some (create_target_variable (encode_physics_features
    (calculate_fuel_mass tables.flatten)))

/-! ## Spec-side characterization for the interpolation refinement -/

/-- Spec-side description of piecewise-linear interpolation with endpoint
clamping, following the spec's words: at a query time `x`, the value `y` is
the first sample's value when `x` lies at or before the first sample time,
the last sample's value when `x` lies at or after the last sample time, or
the linear interpolation between two consecutive samples bracketing `x`. -/
def IsInterpAt (pts : List (ℚ × ℚ)) (x y : ℚ) : Prop :=
  (∃ p0 t, pts = p0 :: t ∧ x ≤ p0.1 ∧ y = p0.2) ∨
  (∃ t pn, pts = t ++ [pn] ∧ pn.1 ≤ x ∧ y = pn.2) ∨
  (∃ l1 l2 p q, pts = l1 ++ p :: q :: l2 ∧ p.1 ≤ x ∧ x ≤ q.1 ∧
    y = p.2 + (q.2 - p.2) * (x - p.1) / (q.1 - p.1))

/-- The single-step map applied to every row by `calculate_fuel_mass`
(assignment composed with the 2.0 kg clip). -/
def fuelRow (df : List Row) (r : Row) : Row :=
  { r with fuelMass := some (max
      ((((raceLengths df r.year r.eventName).getD 55) - r.lapNumber) * (17/10) + 5) 2) }

/-- The non-derived columns of a row: the part `encode_physics_features`
must carry over unchanged from the input (everything except the derived
`Compound_Softness` and `TyreAge` and the imputed `TrackTemp`). -/
def baseData (r : Row) : ℤ × String × ℚ × String × Option ℚ × Option ℚ × Option ℚ :=
  (r.year, r.eventName, r.lapNumber, r.compound, r.tyreLife, r.lapTimeSeconds, r.fuelMass)

/-! ## Concrete test fixtures -/

/-- Convenience constructor for a feature-stage row. -/
def mkRow (y : ℤ) (e : String) (ln : ℚ) (c : String) (lts : Option ℚ) : Row :=
  { year := y, eventName := e, lapNumber := ln, compound := c,
    tyreLife := some 1, trackTemp := some 30, lapTimeSeconds := lts }

/-- Two rows of one race group whose maximum lap number is 50. -/
def dfC9 : List Row :=
  [mkRow 2023 "X" 10 "SOFT" (some 90), mkRow 2023 "X" 50 "SOFT" (some 90)]

/-- A table with one lap on each of the compounds HARD, SOFT, WET,
INTERMEDIATE. -/
def dfC5 : List Row :=
  [mkRow 2023 "X" 1 "HARD" (some 90), mkRow 2023 "X" 2 "SOFT" (some 91),
   mkRow 2023 "X" 3 "WET" (some 92), mkRow 2023 "X" 4 "INTERMEDIATE" (some 93)]

/-- One race group with lap times 80, 85, 90, 107, 110 s: its median is
90 s, so the 1.20 threshold is 108 s. -/
def dfC6 : List Row :=
  [mkRow 2023 "X" 1 "SOFT" (some 80), mkRow 2023 "X" 2 "SOFT" (some 85),
   mkRow 2023 "X" 3 "SOFT" (some 90), mkRow 2023 "X" 4 "SOFT" (some 107),
   mkRow 2023 "X" 5 "SOFT" (some 110)]

/-- A dry-compound row with a negative tire-life value. -/
def rowC8 : Row := { mkRow 2023 "X" 1 "SOFT" (some 90) with tyreLife := some (-2) }

/-- A weather series with samples at t=0 (value 20) and t=100 (value 30) on
all four channels. -/
def wC2 : List WeatherRow := [⟨0, 20, 20, 20, 20⟩, ⟨100, 30, 30, 30, 30⟩]

/-- A clean lap ending at time `t`. -/
def lapAtC2 (t : ℚ) : LapRow :=
  { driver := "VER", lapNumber := 1, timeSec := t, isAccurate := true,
    pitInTime := none, pitOutTime := none, lapTime := some 90 }

/-- An accurate lap away from any pit stop. -/
def lapGood : LapRow :=
  { driver := "VER", lapNumber := 1, timeSec := 100, isAccurate := true,
    pitInTime := none, pitOutTime := none, lapTime := some 90 }

/-- A lap flagged not accurate, which `pick_accurate()` rejects. -/
def lapBad : LapRow :=
  { driver := "PER", lapNumber := 2, timeSec := 200, isAccurate := false,
    pitInTime := none, pitOutTime := none, lapTime := some 95 }

/-- A session holding one accurate and one inaccurate lap, with weather. -/
def sessionC1 : Session :=
  { laps := [lapGood, lapBad], weather := [⟨0, 25, 30, 50, 0⟩] }

/-- A race round whose session is `sessionC1`. -/
def raceC1 : RaceEvent :=
  { roundNumber := 1, eventName := "GP", location := "Loc",
    eventFormat := "conventional", session := some sessionC1 }

/-! ## Helper lemmas -/

theorem foldl_max_le (l : List ℚ) :
    ∀ a : ℚ, a ≤ l.foldl max a ∧ ∀ x ∈ l, x ≤ l.foldl max a := by
  induction l with
  | nil => intro a; exact ⟨le_refl a, by simp⟩
  | cons b t ih =>
    intro a
    have h := ih (max a b)
    refine ⟨le_trans (le_max_left a b) h.1, ?_⟩
    intro x hx
    rcases List.mem_cons.mp hx with rfl | hx
    · exact le_trans (le_max_right a x) h.1
    · exact h.2 x hx

theorem foldl_max_mem (l : List ℚ) :
    ∀ a : ℚ, l.foldl max a = a ∨ l.foldl max a ∈ l := by
  induction l with
  | nil => intro a; exact Or.inl rfl
  | cons b t ih =>
    intro a
    rcases ih (max a b) with h | h
    · rcases max_choice a b with hc | hc
      · exact Or.inl (by rw [List.foldl_cons, h, hc])
      · refine Or.inr ?_
        rw [List.foldl_cons, h, hc]
        exact List.mem_cons_self b t
    · exact Or.inr (List.mem_cons_of_mem _ h)

theorem maxQ?_spec {l : List ℚ} {m : ℚ} (h : maxQ? l = some m) :
    m ∈ l ∧ ∀ x ∈ l, x ≤ m := by
  cases l with
  | nil => simp [maxQ?] at h
  | cons a t =>
    simp only [maxQ?, Option.some.injEq] at h
    subst h
    constructor
    · rcases foldl_max_mem t a with h | h
      · rw [h]; exact List.mem_cons_self a t
      · exact List.mem_cons_of_mem _ h
    · intro x hx
      rcases List.mem_cons.mp hx with rfl | hx
      · exact (foldl_max_le t x).1
      · exact (foldl_max_le t a).2 x hx

theorem calculate_fuel_mass_eq_map (df : List Row) :
    calculate_fuel_mass df = df.map (fuelRow df) := by
  unfold calculate_fuel_mass fuelRow
  rw [List.map_map]
  rfl

theorem encode_baseData (df : List Row) :
    (encode_physics_features df).map baseData =
      (df.filter fun r => match compound_map r.compound with
        | some s => decide (0 < s)
        | none => false).map baseData := by
  unfold encode_physics_features
  rw [List.map_map, List.map_map, List.filter_map, List.map_map]
  rfl

theorem sorted_head_le {a : ℚ} {l : List ℚ} (h : (a :: l).Sorted (· ≤ ·)) :
    ∀ x ∈ a :: l, a ≤ x := by
  intro x hx
  rcases List.mem_cons.mp hx with rfl | hx
  · exact le_refl x
  · exact (List.sorted_cons.mp h).1 x hx

theorem medianQ?_exists_le {l : List ℚ} {m : ℚ} (h : medianQ? l = some m) :
    ∃ x ∈ l, x ≤ m := by
  unfold medianQ? at h
  set s := List.insertionSort (· ≤ ·) l with hs
  have hsorted : s.Sorted (· ≤ ·) := List.sorted_insertionSort _ l
  have hperm : List.Perm s l := List.perm_insertionSort _ l
  cases hcs : s with
  | nil => rw [hcs] at h; simp at h
  | cons a t =>
    have hhead : ∀ x ∈ s, a ≤ x := by
      rw [hcs]; exact sorted_head_le (hcs ▸ hsorted)
    have hal : a ∈ l := hperm.mem_iff.mp (hcs ▸ List.mem_cons_self a t)
    refine ⟨a, hal, ?_⟩
    rw [hcs] at h
    simp only [List.length_cons] at h
    by_cases hodd : (t.length + 1) % 2 = 1
    · rw [if_neg (by omega), if_pos hodd] at h
      have : m ∈ a :: t := List.getElem?_mem h
      exact hhead m (hcs ▸ this)
    · rw [if_neg (by omega), if_neg hodd] at h
      cases h1 : (a :: t)[(t.length + 1) / 2 - 1]? with
      | none =>
        rw [h1] at h
        cases h2 : (a :: t)[(t.length + 1) / 2]? <;> rw [h2] at h <;> simp at h
      | some x =>
        cases h2 : (a :: t)[(t.length + 1) / 2]? with
        | none => rw [h1, h2] at h; simp at h
        | some y =>
          rw [h1, h2] at h
          simp only [Option.some.injEq] at h
          have hx : a ≤ x := hhead x (hcs ▸ List.getElem?_mem h1)
          have hy : a ≤ y := hhead y (hcs ▸ List.getElem?_mem h2)
          rw [← h]
          linarith

theorem medianQ?_isSome {l : List ℚ} (h : l ≠ []) : ∃ m, medianQ? l = some m := by
  unfold medianQ?
  set s := List.insertionSort (· ≤ ·) l with hs
  have hlen : s.length = l.length := List.Perm.length_eq (List.perm_insertionSort _ l)
  have hpos : 0 < s.length := by
    rw [hlen]
    exact List.length_pos.mpr h
  rw [if_neg (by omega)]
  by_cases hodd : s.length % 2 = 1
  · rw [if_pos hodd]
    have hlt : s.length / 2 < s.length := Nat.div_lt_self hpos (by norm_num)
    exact ⟨s[s.length / 2], List.getElem?_eq_getElem hlt⟩
  · rw [if_neg hodd]
    have h1 : s.length / 2 - 1 < s.length := by omega
    have h2 : s.length / 2 < s.length := Nat.div_lt_self hpos (by norm_num)
    have e1 : s[s.length / 2 - 1]? = some s[s.length / 2 - 1] := List.getElem?_eq_getElem h1
    have e2 : s[s.length / 2]? = some s[s.length / 2] := List.getElem?_eq_getElem h2
    rw [e1, e2]
    exact ⟨_, rfl⟩

theorem is_outlier_iff (df : List Row) (r : Row) :
    is_outlier df r = true ↔
      ∃ t m, r.lapTimeSeconds = some t ∧
        raceMedians df r.year r.eventName = some m ∧ m * (6/5) < t := by
  unfold is_outlier
  cases h1 : r.lapTimeSeconds with
  | none => simp
  | some t =>
    cases h2 : raceMedians df r.year r.eventName with
    | none => simp
    | some m => simp

theorem interpPts_sound {x y : ℚ} : ∀ {pts : List (ℚ × ℚ)},
    interpPts x pts = some y → IsInterpAt pts x y := by
  intro pts
  induction pts with
  | nil => intro h; simp [interpPts] at h
  | cons p0 rest ih =>
    intro h
    cases rest with
    | nil =>
      obtain ⟨x0, y0⟩ := p0
      simp only [interpPts, Option.some.injEq] at h
      by_cases hx : x ≤ x0
      · exact Or.inl ⟨(x0, y0), [], rfl, hx, h.symm⟩
      · exact Or.inr (Or.inl ⟨[], (x0, y0), rfl, le_of_not_le hx, h.symm⟩)
    | cons p1 rest' =>
      obtain ⟨x0, y0⟩ := p0
      obtain ⟨x1, y1⟩ := p1
      rw [interpPts] at h
      by_cases hx0 : x ≤ x0
      · rw [if_pos hx0] at h
        exact Or.inl ⟨(x0, y0), _, rfl, hx0, (Option.some.injEq _ _ ▸ h).symm⟩
      · rw [if_neg hx0] at h
        by_cases hx1 : x ≤ x1
        · rw [if_pos hx1] at h
          refine Or.inr (Or.inr ⟨[], rest', (x0, y0), (x1, y1), rfl,
            le_of_lt (lt_of_not_le hx0), hx1, ?_⟩)
          exact (Option.some.injEq _ _ ▸ h).symm
        · rw [if_neg hx1] at h
          rcases ih h with hfirst | hlast | hmid
          · obtain ⟨q0, t, hq, hxq, hyq⟩ := hfirst
            obtain ⟨rfl, rfl⟩ : q0 = (x1, y1) ∧ t = rest' := by
              constructor <;> [exact (List.cons.injEq _ _ _ _ ▸ hq).1.symm;
                exact (List.cons.injEq _ _ _ _ ▸ hq).2.symm]
            exact absurd hxq hx1
          · obtain ⟨t, pn, hq, hxq, hyq⟩ := hlast
            exact Or.inr (Or.inl ⟨(x0, y0) :: t, pn, by rw [hq]; rfl, hxq, hyq⟩)
          · obtain ⟨l1, l2, p, q, hq, hpx, hxq, hyq⟩ := hmid
            exact Or.inr (Or.inr ⟨(x0, y0) :: l1, l2, p, q, by rw [hq]; rfl,
              hpx, hxq, hyq⟩)

theorem interpPts_isSome (x : ℚ) : ∀ (pts : List (ℚ × ℚ)), pts ≠ [] →
    ∃ y, interpPts x pts = some y := by
  intro pts
  induction pts with
  | nil => intro h; exact absurd rfl h
  | cons p0 rest ih =>
    intro _
    cases rest with
    | nil => exact ⟨p0.2, rfl⟩
    | cons p1 rest' =>
      obtain ⟨x0, y0⟩ := p0
      obtain ⟨x1, y1⟩ := p1
      rw [interpPts]
      by_cases hx0 : x ≤ x0
      · rw [if_pos hx0]; exact ⟨y0, rfl⟩
      · rw [if_neg hx0]
        by_cases hx1 : x ≤ x1
        · rw [if_pos hx1]; exact ⟨_, rfl⟩
        · rw [if_neg hx1]
          exact ih (by simp)

/-! ## Claims -/

/-- C1: the claim says every lap row in a season table produced by
`process_season` passed `pick_accurate().pick_wo_box()`.  The code violates
this: line 79 of `ingest_data.py` reassigns `clean_laps` to the result of
`enrich_laps_with_weather(session)`, which re-reads the unfiltered
`session.laps`, so the filtered set is discarded after its emptiness check.
On a round with one accurate clean lap and one inaccurate lap, the season
table contains the inaccurate lap. -/
theorem process_season_keeps_unfiltered_laps :
    cleanLapFilter sessionC1.laps = [lapGood] ∧
    ∃ rows, process_season 2023 [raceC1] = some rows ∧
      ∃ r ∈ rows, r.lap.driver = "PER" ∧ r.lap.isAccurate = false := by decide

/-- C2: for a lap table and a weather series of at least 2 samples sorted
strictly by time, `enrich_laps_with_weather` assigns, to each lap and each
of the 4 channels, the piecewise-linear interpolation of the channel's
(time, value) pairs at the lap's end time, clamping to the nearest endpoint
value outside the range; for samples (t=0, 20) and (t=100, 30), a lap ending
at t=50 receives exactly 25, a lap at t=150 receives 30, and a lap at t=−10
receives 20. -/
theorem enrich_laps_with_weather_interp_spec (laps : List LapRow)
    (weather : List WeatherRow)
    (hsorted : weather.Pairwise (fun a b => a.timeSec < b.timeSec))
    (hlen : 2 ≤ weather.length) :
    (∃ out, enrich_laps_with_weather laps weather = some out ∧
      out = laps.map (enrichLap weather) ∧
      ∀ lp ∈ laps,
        (∃ y, (enrichLap weather lp).airTemp = some y ∧
          IsInterpAt (weather.map fun w => (w.timeSec, w.airTemp)) lp.timeSec y) ∧
        (∃ y, (enrichLap weather lp).trackTemp = some y ∧
          IsInterpAt (weather.map fun w => (w.timeSec, w.trackTemp)) lp.timeSec y) ∧
        (∃ y, (enrichLap weather lp).humidity = some y ∧
          IsInterpAt (weather.map fun w => (w.timeSec, w.humidity)) lp.timeSec y) ∧
        (∃ y, (enrichLap weather lp).rainfall = some y ∧
          IsInterpAt (weather.map fun w => (w.timeSec, w.rainfall)) lp.timeSec y)) ∧
    (enrichLap wC2 (lapAtC2 50)).airTemp = some 25 ∧
    (enrichLap wC2 (lapAtC2 50)).trackTemp = some 25 ∧
    (enrichLap wC2 (lapAtC2 50)).humidity = some 25 ∧
    (enrichLap wC2 (lapAtC2 50)).rainfall = some 25 ∧
    (enrichLap wC2 (lapAtC2 150)).airTemp = some 30 ∧
    (enrichLap wC2 (lapAtC2 (-10))).airTemp = some 20 := by
  have hne : weather ≠ [] := by
    cases weather with
    | nil => simp at hlen
    | cons a t => simp
  have hch : ∀ (f : WeatherRow → ℚ) (t : ℚ),
      ∃ y, interpPts t (weather.map fun w => (w.timeSec, f w)) = some y ∧
        IsInterpAt (weather.map fun w => (w.timeSec, f w)) t y := by
    intro f t
    obtain ⟨y, hy⟩ := interpPts_isSome t (weather.map fun w => (w.timeSec, f w))
      (by simp [hne])
    exact ⟨y, hy, interpPts_sound hy⟩
  refine ⟨⟨laps.map (enrichLap weather), ?_, rfl, ?_⟩, ?_, ?_, ?_, ?_, rfl, rfl⟩
  · cases weather with
    | nil => exact absurd rfl hne
    | cons a t => rfl
  · intro lp _
    refine ⟨?_, ?_, ?_, ?_⟩
    · obtain ⟨y, hy, hs⟩ := hch (·.airTemp) lp.timeSec
      exact ⟨y, hy, hs⟩
    · obtain ⟨y, hy, hs⟩ := hch (·.trackTemp) lp.timeSec
      exact ⟨y, hy, hs⟩
    · obtain ⟨y, hy, hs⟩ := hch (·.humidity) lp.timeSec
      exact ⟨y, hy, hs⟩
    · obtain ⟨y, hy, hs⟩ := hch (·.rainfall) lp.timeSec
      exact ⟨y, hy, hs⟩
  · norm_num [enrichLap, interpPts, wC2, lapAtC2]
  · norm_num [enrichLap, interpPts, wC2, lapAtC2]
  · norm_num [enrichLap, interpPts, wC2, lapAtC2]
  · norm_num [enrichLap, interpPts, wC2, lapAtC2]

/-- C2 witness: the interpolation theorem instantiated at the concrete
two-sample weather series and the lap ending at t=50. -/
theorem enrich_laps_with_weather_interp_spec_witness :
    (∃ out, enrich_laps_with_weather [lapAtC2 50] wC2 = some out ∧
      out = [lapAtC2 50].map (enrichLap wC2) ∧
      ∀ lp ∈ [lapAtC2 50],
        (∃ y, (enrichLap wC2 lp).airTemp = some y ∧
          IsInterpAt (wC2.map fun w => (w.timeSec, w.airTemp)) lp.timeSec y) ∧
        (∃ y, (enrichLap wC2 lp).trackTemp = some y ∧
          IsInterpAt (wC2.map fun w => (w.timeSec, w.trackTemp)) lp.timeSec y) ∧
        (∃ y, (enrichLap wC2 lp).humidity = some y ∧
          IsInterpAt (wC2.map fun w => (w.timeSec, w.humidity)) lp.timeSec y) ∧
        (∃ y, (enrichLap wC2 lp).rainfall = some y ∧
          IsInterpAt (wC2.map fun w => (w.timeSec, w.rainfall)) lp.timeSec y)) ∧
    (enrichLap wC2 (lapAtC2 50)).airTemp = some 25 ∧
    (enrichLap wC2 (lapAtC2 50)).trackTemp = some 25 ∧
    (enrichLap wC2 (lapAtC2 50)).humidity = some 25 ∧
    (enrichLap wC2 (lapAtC2 50)).rainfall = some 25 ∧
    (enrichLap wC2 (lapAtC2 150)).airTemp = some 30 ∧
    (enrichLap wC2 (lapAtC2 (-10))).airTemp = some 20 :=
  enrich_laps_with_weather_interp_spec [lapAtC2 50] wC2 (by decide) (by decide)

/-- C3 counterexample: with an empty weather series, the enrichment does not
assign a missing-value sentinel to each lap; it produces no table at all
(`np.interp` raises `ValueError`, modelled as `none`). -/
theorem enrich_empty_weather_counterexample :
    enrich_laps_with_weather [lapAtC2 0] [] = none ∧
    ¬ ∃ out, enrich_laps_with_weather [lapAtC2 0] [] = some out := by
  constructor
  · rfl
  · rintro ⟨out, h⟩
    simp [enrich_laps_with_weather] at h

/-- C3 amended: with exactly one weather sample every lap receives that
sample's value on each of the 4 channels; with an empty series the
enrichment fails with an error (`np.interp` raises `ValueError`, which the
per-round handler catches, skipping the round) instead of assigning a
sentinel. -/
theorem enrich_few_samples_spec :
    (∀ (laps : List LapRow) (w : WeatherRow),
      enrich_laps_with_weather laps [w] = some (laps.map fun lp =>
        { lp with airTemp := some w.airTemp, trackTemp := some w.trackTemp,
                  humidity := some w.humidity, rainfall := some w.rainfall })) ∧
    (∀ laps : List LapRow, enrich_laps_with_weather laps [] = none) := by
  constructor
  · intro laps w
    rfl
  · intro laps
    rfl

/-- C4: `calculate_fuel_mass` assigns every row with lap number `L`, in a
`(season, event)` group with total `T` (the group's maximum observed lap
number, defaulting to 55 for groups absent from the lookup),
`FuelMass = max ((T − L) * 1.7 + 5) 2`; the formula yields 73 at `T=50, L=10`,
5 at `T=50, L=50`, and 2 at `T=50, L=55`. -/
theorem calculate_fuel_mass_spec :
    (∀ df : List Row, calculate_fuel_mass df = df.map fun r =>
      { r with fuelMass := some (max
          ((((raceLengths df r.year r.eventName).getD 55) - r.lapNumber) * (17/10) + 5) 2) }) ∧
    (∀ df y e T, raceLengths df y e = some T →
      (∃ r ∈ groupRows df y e, r.lapNumber = T) ∧ ∀ r ∈ groupRows df y e, r.lapNumber ≤ T) ∧
    (∀ df y e, groupRows df y e = [] → raceLengths df y e = none) ∧
    max ((50 - (10 : ℚ)) * (17/10) + 5) 2 = 73 ∧
    max ((50 - (50 : ℚ)) * (17/10) + 5) 2 = 5 ∧
    max ((50 - (55 : ℚ)) * (17/10) + 5) 2 = 2 := by
  refine ⟨calculate_fuel_mass_eq_map, ?_, ?_, by norm_num, by norm_num, by norm_num⟩
  · intro df y e T h
    obtain ⟨hmem, hub⟩ := maxQ?_spec h
    constructor
    · obtain ⟨r, hr, hrE⟩ := List.mem_map.mp hmem
      exact ⟨r, hr, hrE⟩
    · intro r hr
      exact hub _ (List.mem_map_of_mem _ hr)
  · intro df y e h
    simp [raceLengths, h, maxQ?]

/-- C4 witness: in the two-row table `dfC9`, the `(2023, "X")` group's
`race_lengths` entry is 50, realised by a row and bounding every row. -/
theorem calculate_fuel_mass_spec_witness :
    (∃ r ∈ groupRows dfC9 2023 "X", r.lapNumber = 50) ∧
    ∀ r ∈ groupRows dfC9 2023 "X", r.lapNumber ≤ 50 :=
  calculate_fuel_mass_spec.2.1 dfC9 2023 "X" 50 (by decide)

/-- C5: `encode_physics_features` maps each compound token to the ordinal
score (HARD 1, MEDIUM 2, SOFT 3, INTERMEDIATE 0, WET 0; unmapped tokens to
a missing value), keeps exactly the rows whose score is strictly positive
(order and all non-derived columns preserved), and on a table with compounds
HARD, SOFT, WET, INTERMEDIATE retains only the HARD and SOFT rows, the
removed count being the count of WET plus INTERMEDIATE rows. -/
theorem encode_physics_features_spec :
    (compound_map "HARD" = some 1 ∧ compound_map "MEDIUM" = some 2 ∧
     compound_map "SOFT" = some 3 ∧ compound_map "INTERMEDIATE" = some 0 ∧
     compound_map "WET" = some 0) ∧
    (∀ c, c ∉ (["HARD", "MEDIUM", "SOFT", "INTERMEDIATE", "WET"] : List String) →
      compound_map c = none) ∧
    (∀ df, (encode_physics_features df).map baseData =
      (df.filter fun r => match compound_map r.compound with
        | some s => decide (0 < s)
        | none => false).map baseData) ∧
    (∀ df r, r ∈ encode_physics_features df → ∃ s, r.compoundSoftness = some s ∧ 0 < s) ∧
    (encode_physics_features dfC5).map (·.compound) = ["HARD", "SOFT"] ∧
    dfC5.length - (encode_physics_features dfC5).length =
      (dfC5.filter fun r => r.compound = "WET" ∨ r.compound = "INTERMEDIATE").length := by
  refine ⟨⟨rfl, rfl, rfl, rfl, rfl⟩, ?_, encode_baseData, ?_, by decide, by decide⟩
  · intro c hc
    simp only [List.mem_cons, List.not_mem_nil, or_false, not_or] at hc
    obtain ⟨h1, h2, h3, h4, h5⟩ := hc
    simp [compound_map, h1, h2, h3, h4, h5]
  · intro df r hr
    unfold encode_physics_features at hr
    obtain ⟨r1, hr1, rfl⟩ := List.mem_map.mp hr
    obtain ⟨r2, hr2, rfl⟩ := List.mem_map.mp hr1
    have hmem := List.mem_filter.mp hr2
    have hpos := hmem.2
    unfold softnessPos at hpos
    cases hcs : r2.compoundSoftness with
    | none => rw [hcs] at hpos; simp at hpos
    | some s =>
      rw [hcs] at hpos
      refine ⟨s, ?_, by simpa using hpos⟩
      simp [hcs]

/-- C5 witness: an unmapped compound yields a missing score, and the HARD
row retained from `dfC5` carries the strictly positive score 1. -/
theorem encode_physics_features_spec_witness :
    compound_map "ULTRASOFT" = none ∧
    ∃ s, ({ mkRow 2023 "X" 1 "HARD" (some 90) with
        compoundSoftness := some 1, tyreAge := some 1 } : Row).compoundSoftness =
      some s ∧ 0 < s :=
  ⟨encode_physics_features_spec.2.1 "ULTRASOFT" (by decide),
   encode_physics_features_spec.2.2.2.1 dfC5
     ({ mkRow 2023 "X" 1 "HARD" (some 90) with
        compoundSoftness := some 1, tyreAge := some 1 }) (by decide)⟩

/-- C6: `create_target_variable` drops exactly the rows whose
`LapTimeSeconds` strictly exceeds 1.20 times the median `LapTimeSeconds` of
the rows currently retained in that row's `(season, event)` group, and no
others; on the concrete group `dfC6` the median is 90 s, the 110 s row is
removed and the 107 s row is retained. -/
theorem create_target_variable_spec :
    (∀ df r, r ∈ create_target_variable df ↔
      r ∈ df ∧ ¬ ∃ t m, r.lapTimeSeconds = some t ∧
        raceMedians df r.year r.eventName = some m ∧ m * (6/5) < t) ∧
    raceMedians dfC6 2023 "X" = some 90 ∧
    (create_target_variable dfC6).map (·.lapTimeSeconds) =
      [some 80, some 85, some 90, some 107] := by
  have hmed : raceMedians dfC6 2023 "X" = some 90 := by decide
  refine ⟨?_, hmed, ?_⟩
  · intro df r
    rw [create_target_variable, List.mem_filter]
    rw [← is_outlier_iff]
    simp
  · have hout : ∀ ln lts : ℚ, is_outlier dfC6 (mkRow 2023 "X" ln "SOFT" (some lts)) =
        decide (90 * (6/5) < lts) := by
      intro ln lts
      unfold is_outlier
      rw [show (mkRow 2023 "X" ln "SOFT" (some lts)).lapTimeSeconds = some lts from rfl]
      rw [show raceMedians dfC6 (mkRow 2023 "X" ln "SOFT" (some lts)).year
            (mkRow 2023 "X" ln "SOFT" (some lts)).eventName = some 90 from hmed]
    show ((dfC6.filter fun r => !(is_outlier dfC6 r)).map (·.lapTimeSeconds)) = _
    set f := is_outlier dfC6 with hf
    have hout' : ∀ ln lts : ℚ, f (mkRow 2023 "X" ln "SOFT" (some lts)) =
        decide (90 * (6/5) < lts) := by
      intro ln lts
      rw [hf]
      exact hout ln lts
    simp only [dfC6, List.filter_cons, List.filter_nil, hout' 1 80, hout' 2 85,
      hout' 3 90, hout' 4 107, hout' 5 110]
    norm_num
    exact ⟨rfl, rfl, rfl, rfl⟩

/-- C6 witness: the 80 s row of `dfC6` is retained by the outlier filter,
via the membership characterization. -/
theorem create_target_variable_spec_witness :
    mkRow 2023 "X" 1 "SOFT" (some 80) ∈ create_target_variable dfC6 :=
  (create_target_variable_spec.1 dfC6 (mkRow 2023 "X" 1 "SOFT" (some 80))).mpr
    ⟨by decide, by
      rintro ⟨t, m, ht, hm, hlt⟩
      have ht' : t = 80 := by
        rw [show (mkRow 2023 "X" 1 "SOFT" (some 80)).lapTimeSeconds = some 80 from rfl] at ht
        exact (Option.some.injEq _ _ ▸ ht).symm
      have hm' : m = 90 := by
        rw [show raceMedians dfC6 (mkRow 2023 "X" 1 "SOFT" (some 80)).year
              (mkRow 2023 "X" 1 "SOFT" (some 80)).eventName = some 90 from
            create_target_variable_spec.2.1] at hm
        exact (Option.some.injEq _ _ ▸ hm).symm
      rw [ht', hm'] at hlt
      norm_num at hlt⟩

/-- C7: the `FeatureEngineer` pipeline is a pure function of the ordered
list of raw season tables it loads, so two complete runs on the same input
produce identical output tables.  (The byte encoding of the parquet files
and the directory listing are the external I/O collaborator's concern.) -/
theorem featurePipeline_deterministic :
    ∀ tables1 tables2 : List (List Row), tables1 = tables2 →
      featurePipeline tables1 = featurePipeline tables2 :=
  fun _ _ h => congrArg featurePipeline h

/-- C7 witness: two runs on the fixture input coincide. -/
theorem featurePipeline_deterministic_witness :
    featurePipeline [dfC6] = featurePipeline [dfC6] :=
  featurePipeline_deterministic [dfC6] [dfC6] rfl

/-- C8 counterexample: the claim says `TyreAge` is never negative for any
input table, but `TyreLife.fillna(1).astype(int)` has no lower clamp: a
(dry-compound) row with tire-life −2 keeps `TyreAge = −2` through
`encode_physics_features`. -/
theorem tyreAge_negative_counterexample :
    ∃ r ∈ encode_physics_features [rowC8], ∃ a, r.tyreAge = some a ∧ a < 0 := by decide

/-- C8 amended: after `encode_physics_features` every retained row's
`TyreAge` equals its tire-life value truncated toward zero (missing treated
as 1), and it is non-negative whenever every tire-life value in the input
table is non-negative (as real data satisfies) — not unconditionally. -/
theorem tyreAge_spec (df : List Row)
    (hnn : ∀ r ∈ df, ∀ t, r.tyreLife = some t → 0 ≤ t) :
    ∀ r ∈ encode_physics_features df,
      r.tyreAge = some (truncToInt ((r.tyreLife).getD 1)) ∧
      ∃ a, r.tyreAge = some a ∧ 0 ≤ a := by
  intro r hr
  unfold encode_physics_features at hr
  obtain ⟨r1, hr1, rfl⟩ := List.mem_map.mp hr
  obtain ⟨r2, hr2, rfl⟩ := List.mem_map.mp hr1
  have hmem := List.mem_filter.mp hr2
  obtain ⟨r3, hr3, rfl⟩ := List.mem_map.mp hmem.1
  constructor
  · rfl
  · refine ⟨truncToInt ((r3.tyreLife).getD 1), rfl, ?_⟩
    cases ht : r3.tyreLife with
    | none =>
      simp only [ht, Option.getD_none, truncToInt]
      norm_num
    | some t =>
      have h0 : 0 ≤ t := hnn r3 hr3 t ht
      simp only [ht, Option.getD_some, truncToInt, if_pos h0]
      exact Int.floor_nonneg.mpr h0

/-- C8 witness: on a one-row table with tire-life 1, the encoded row's
`TyreAge` is the truncation of 1 and is non-negative. -/
theorem tyreAge_spec_witness :
    ({ mkRow 2023 "X" 1 "SOFT" (some 90) with
        compoundSoftness := some 3, tyreAge := some 1 } : Row).tyreAge =
      some (truncToInt ((some (1 : ℚ)).getD 1)) ∧
    ∃ a, ({ mkRow 2023 "X" 1 "SOFT" (some 90) with
        compoundSoftness := some 3, tyreAge := some 1 } : Row).tyreAge = some a ∧ 0 ≤ a :=
  tyreAge_spec [mkRow 2023 "X" 1 "SOFT" (some 90)] (by decide)
    ({ mkRow 2023 "X" 1 "SOFT" (some 90) with compoundSoftness := some 3, tyreAge := some 1 })
    (by decide)

/-- C9: within one `(season, event)` group, `FuelMass` after
`calculate_fuel_mass` is non-increasing in lap number: if two output rows
share a group and the first's lap number is at most the second's, the
first's fuel mass is at least the second's. -/
theorem fuelMass_antitone (df : List Row) (s1 s2 : Row)
    (h1 : s1 ∈ calculate_fuel_mass df) (h2 : s2 ∈ calculate_fuel_mass df)
    (hy : s1.year = s2.year) (he : s1.eventName = s2.eventName)
    (hl : s1.lapNumber ≤ s2.lapNumber) :
    ∃ f1 f2, s1.fuelMass = some f1 ∧ s2.fuelMass = some f2 ∧ f2 ≤ f1 := by
  rw [calculate_fuel_mass_eq_map] at h1 h2
  obtain ⟨r1, hr1, rfl⟩ := List.mem_map.mp h1
  obtain ⟨r2, hr2, rfl⟩ := List.mem_map.mp h2
  simp only [fuelRow] at hy he hl ⊢
  refine ⟨_, _, rfl, rfl, ?_⟩
  rw [← hy, ← he]
  refine max_le_max ?_ le_rfl
  have h10 : (0 : ℚ) < 17/10 := by norm_num
  nlinarith [hl]

/-- C9 witness: in `dfC9` (group maximum 50), the lap-10 row's fuel mass
dominates the lap-50 row's. -/
theorem fuelMass_antitone_witness :
    ∃ f1 f2, (fuelRow dfC9 (mkRow 2023 "X" 10 "SOFT" (some 90))).fuelMass = some f1 ∧
      (fuelRow dfC9 (mkRow 2023 "X" 50 "SOFT" (some 90))).fuelMass = some f2 ∧ f2 ≤ f1 :=
  fuelMass_antitone dfC9 _ _
    (by rw [calculate_fuel_mass_eq_map]; exact List.mem_map_of_mem _ (by decide))
    (by rw [calculate_fuel_mass_eq_map]; exact List.mem_map_of_mem _ (by decide))
    rfl rfl (by decide)

/-- C10: if all `LapTimeSeconds` values in the table are non-negative,
`create_target_variable` never removes a row whose lap time is at most its
group's median, and every `(season, event)` group that is non-empty before
the outlier filter remains non-empty after it. -/
theorem create_target_variable_no_drop (df : List Row)
    (hnn : ∀ r ∈ df, ∀ t, r.lapTimeSeconds = some t → 0 ≤ t) :
    (∀ r ∈ df, ∀ t m, r.lapTimeSeconds = some t →
      raceMedians df r.year r.eventName = some m → t ≤ m →
      r ∈ create_target_variable df) ∧
    (∀ y e, (∃ r ∈ df, r.year = y ∧ r.eventName = e) →
      ∃ r ∈ create_target_variable df, r.year = y ∧ r.eventName = e) := by
  have hmednn : ∀ y e m, raceMedians df y e = some m → 0 ≤ m := by
    intro y e m hm
    unfold raceMedians at hm
    obtain ⟨x, hx, hxm⟩ := medianQ?_exists_le hm
    obtain ⟨r', hr', hr'x⟩ := List.mem_filterMap.mp hx
    have hr'df : r' ∈ df := List.mem_of_mem_filter hr'
    have : 0 ≤ x := hnn r' hr'df x hr'x
    linarith
  have partA : ∀ r ∈ df, ∀ t m, r.lapTimeSeconds = some t →
      raceMedians df r.year r.eventName = some m → t ≤ m →
      r ∈ create_target_variable df := by
    intro r hr t m hts hmed htm
    rw [create_target_variable, List.mem_filter]
    refine ⟨hr, ?_⟩
    have hm0 : 0 ≤ m := hmednn _ _ _ hmed
    have hfalse : is_outlier df r = false := by
      unfold is_outlier
      rw [hts, hmed]
      simp only [decide_eq_false_iff_not, not_lt]
      linarith
    rw [hfalse]
    rfl
  refine ⟨partA, ?_⟩
  intro y e ⟨r, hr, hy, he⟩
  have hgr : r ∈ groupRows df y e := by
    rw [groupRows, List.mem_filter]
    exact ⟨hr, by simp [hy, he]⟩
  by_cases hall : ∃ r' ∈ groupRows df y e, r'.lapTimeSeconds = none
  · obtain ⟨r', hr', hnone⟩ := hall
    have hr'grp := List.mem_filter.mp hr'
    have hr'df : r' ∈ df := hr'grp.1
    have hr'ye : r'.year = y ∧ r'.eventName = e := by
      have := hr'grp.2
      simp only [Bool.and_eq_true, decide_eq_true_eq] at this
      exact this
    refine ⟨r', ?_, hr'ye⟩
    rw [create_target_variable, List.mem_filter]
    refine ⟨hr'df, ?_⟩
    have hfalse : is_outlier df r' = false := by
      unfold is_outlier
      rw [hnone]
    rw [hfalse]
    rfl
  · push_neg at hall
    have hrts : ∃ t, r.lapTimeSeconds = some t := by
      cases h : r.lapTimeSeconds with
      | none => exact absurd h (hall r hgr)
      | some t => exact ⟨t, rfl⟩
    obtain ⟨t, ht⟩ := hrts
    have htv : t ∈ (groupRows df y e).filterMap (·.lapTimeSeconds) :=
      List.mem_filterMap.mpr ⟨r, hgr, ht⟩
    have hne : (groupRows df y e).filterMap (·.lapTimeSeconds) ≠ [] :=
      List.ne_nil_of_mem htv
    obtain ⟨m, hm⟩ := medianQ?_isSome hne
    have hmed : raceMedians df y e = some m := hm
    obtain ⟨x, hx, hxm⟩ := medianQ?_exists_le hm
    obtain ⟨r'', hr'', hr''x⟩ := List.mem_filterMap.mp hx
    have hr''grp := List.mem_filter.mp hr''
    have hr''df : r'' ∈ df := hr''grp.1
    have hr''ye : r''.year = y ∧ r''.eventName = e := by
      have := hr''grp.2
      simp only [Bool.and_eq_true, decide_eq_true_eq] at this
      exact this
    refine ⟨r'', ?_, hr''ye⟩
    refine partA r'' hr''df x m hr''x ?_ hxm
    rw [hr''ye.1, hr''ye.2]
    exact hmed

/-- C10 witness: on `dfC6` (all lap times non-negative), the `(2023, "X")`
group is still represented after the outlier filter. -/
theorem create_target_variable_no_drop_witness :
    ∃ r ∈ create_target_variable dfC6, r.year = 2023 ∧ r.eventName = "X" :=
  (create_target_variable_no_drop dfC6 (by decide)).2 2023 "X"
    ⟨mkRow 2023 "X" 1 "SOFT" (some 80), by decide, rfl, rfl⟩

end F1
